import Mathlib

/-!
Shallow embedding of the resilient ECM API client layer
(`src/client/ecm_client.py`, `src/client/auth.py`, `src/client/exceptions.py`,
`src/utils/config.py`) and proofs about it.

Modelling conventions:
* Wall-clock instants and durations (Python `time.time()` floats) are modelled
  as exact integers `ℤ`; the code only adds, subtracts and compares them, so
  no property below depends on fractional instants.
* A raised Python exception is modelled as an explicit error value in the
  result type of the function that raises it.
* JSON response bodies are modelled just deeply enough for the classifier:
  a parse either yields a JSON object with string-valued fields, yields a
  non-object JSON value (on which `dict.get` would raise), or fails.
-/

namespace ECM

/-- The exception classes of `src/client/exceptions.py`, as a closed kind
taxonomy.  `valueErrorKind` stands for Python's builtin `ValueError`
(raised e.g. by `min([])`), which is not an `ECMClientError`. -/
inductive ErrKind where
  | clientError          -- ECMClientError (the base / generic API error)
  | authenticationError  -- ECMAuthenticationError
  | notFoundError        -- ECMNotFoundError
  | permissionError      -- ECMPermissionError
  | rateLimitError       -- ECMRateLimitError
  | validationError      -- ECMValidationError
  | timeoutError         -- ECMTimeoutError
  | valueErrorKind       -- builtin ValueError, outside the ECM hierarchy
  deriving Repr, DecidableEq

/-- An `ECMClientError` instance: message plus optional status code and raw
response body, as constructed in `src/client/exceptions.py`. -/
structure ECMError where
  kind : ErrKind
  message : String
  statusCode : Option Nat := none
  responseBody : Option String := none
  deriving Repr, DecidableEq

/-- Outcome of parsing a response body as JSON (`response.json()`). -/
inductive JsonParse where
  /-- Parsed to a JSON object; fields modelled as string key/value pairs. -/
  | obj (fields : List (String × String))
  /-- Parsed, but not an object: `.get` on it raises `AttributeError`. -/
  | nonObj
  /-- `response.json()` itself raises (body is not valid JSON). -/
  | fail
  deriving Repr, DecidableEq

/-- An HTTP response as the client observes it: status code, the result of
attempting to parse the body as JSON, and the raw body text. -/
structure Response where
  statusCode : Nat
  jsonBody : JsonParse
  text : String
  deriving Repr, DecidableEq

/-- First value in an association list with the given key, mirroring
`dict.get(key, default)` (the `default` is supplied at call sites). -/
def lookupField (key : String) : List (String × String) → Option String
  | [] => none
  | (k, v) :: rest => if k = key then some v else lookupField key rest

/-- Lines 190–194 of `ECMClient._handle_error_response`: extract the error
message.  `error_body.get("error", error_body.get("message", response.text))`
inside `try`, with any exception (JSON decode failure, or `.get` on a
non-object) falling back to `response.text`. -/
def extract_error_message (r : Response) : String :=
  match r.jsonBody with
  | .obj fields =>
      match lookupField "error" fields with
      | some v => v
      | none =>
          match lookupField "message" fields with
          | some v => v
          | none => r.text
  | .nonObj => r.text
  | .fail => r.text

/-- `ECMClient._handle_error_response` (lines 179–226): map an error response
to the `ECMClientError` subclass it raises.  Every branch raises, so the
model returns the error value directly. -/
def handle_error_response (r : Response) : ECMError :=
  let errorMessage := extract_error_message r
  if r.statusCode = 401 then
    { kind := .authenticationError
      message := "Authentication failed: " ++ errorMessage
      statusCode := some r.statusCode, responseBody := some r.text }
  else if r.statusCode = 403 then
    { kind := .permissionError
      message := "Permission denied: " ++ errorMessage
      statusCode := some r.statusCode, responseBody := some r.text }
  else if r.statusCode = 404 then
    { kind := .notFoundError
      message := "Resource not found: " ++ errorMessage
      statusCode := some r.statusCode, responseBody := some r.text }
  else if r.statusCode = 429 then
    { kind := .rateLimitError
      message := "Rate limit exceeded: " ++ errorMessage
      statusCode := some r.statusCode, responseBody := some r.text }
  else
    { kind := .clientError
      message := "API error (" ++ toString r.statusCode ++ "): " ++ errorMessage
      statusCode := some r.statusCode, responseBody := some r.text }

/-! ## Rate limiter (`ECMClient._check_rate_limit`, lines 80–101) -/

/-- Result of one admission check.  Each constructor carries the value of
`self._request_times` after the check returns or raises (the purge at lines
85–88 reassigns the list before any raise). -/
inductive RateCheckResult where
  /-- The check returned normally; the timestamp was appended (line 101). -/
  | admitted (newTimes : List ℤ)
  /-- `ECMRateLimitError` was raised (line 96). -/
  | rejected (e : ECMError) (newTimes : List ℤ)
  /-- `min(self._request_times)` raised `ValueError` on an empty list
  (line 92, reachable when `rate_limit = 0` and the purged window is empty). -/
  | valueError (newTimes : List ℤ)
  deriving Repr, DecidableEq

/-- The `ECMRateLimitError` raised at lines 96–98. -/
def rate_limit_exceeded_error (rateLimit : Nat) : ECMError :=
  { kind := .rateLimitError
    message := "Rate limit of " ++ toString rateLimit ++ " requests/minute exceeded" }

/-- `ECMClient._check_rate_limit`: purge timestamps older than 60 s, reject
with `ECMRateLimitError` when the purged window has reached `rate_limit`
(and the computed wait is positive), otherwise record `now` and admit.
Python's `min` on an empty list raises `ValueError`, modelled by
`List.minimum?` returning `none`. -/
def check_rate_limit (rateLimit : Nat) (requestTimes : List ℤ) (now : ℤ) :
    RateCheckResult :=
  let purged := requestTimes.filter (fun t => now - t < 60)
  if rateLimit ≤ purged.length then
    match purged.min? with
    | none => .valueError purged
    | some oldest =>
        let sleepTime := 60 - (now - oldest)
        if 0 < sleepTime then
          .rejected (rate_limit_exceeded_error rateLimit) purged
        else
          .admitted (purged ++ [now])
  else
    .admitted (purged ++ [now])

/-- The window state (`self._request_times`) after an admission check. -/
def rateStateAfter : RateCheckResult → List ℤ
  | .admitted w => w
  | .rejected _ w => w
  | .valueError w => w

/-- `True` iff the check raised `ECMRateLimitError`. -/
def isRateLimitRejection : RateCheckResult → Bool
  | .rejected e _ => e.kind = .rateLimitError
  | _ => false

/-- `True` iff the check returned normally (the request is admitted). -/
def isAdmitted : RateCheckResult → Bool
  | .admitted _ => true
  | _ => false

/-- Run a sequence of admission checks (one per timestamp in `nows`),
threading the window state, and return the final window. -/
def runChecksState (rateLimit : Nat) : List ℤ → List ℤ → List ℤ
  | st, [] => st
  | st, now :: rest =>
      runChecksState rateLimit
        (rateStateAfter (check_rate_limit rateLimit st now)) rest

/-! ## Request executor (`ECMClient._request`, lines 103–177) -/

/-- What one attempt of the retry loop observes from the transport:
either an HTTP response, or `httpx.TimeoutException`, or another
`httpx.HTTPError` (transport-level failure). -/
inductive AttemptResult where
  | success (resp : Response)
  | timeout (msg : String)
  | transportError (msg : String)
  deriving Repr, DecidableEq

/-- `True` iff the attempt failed at transport level (the only retryable
failures: `httpx.TimeoutException` or another `httpx.HTTPError`). -/
def isRetryable : AttemptResult → Bool
  | .success _ => false
  | .timeout _ => true
  | .transportError _ => true

/-- The exception the retry loop builds from a retryable failure
(lines 159 and 167).  The `success` branch is unreachable under the
hypotheses that use this function. -/
def retryableError : AttemptResult → ECMError
  | .timeout msg => { kind := .timeoutError, message := "Request timeout: " ++ msg }
  | .transportError msg => { kind := .clientError, message := "HTTP error: " ++ msg }
  | .success _ => { kind := .clientError, message := "Request failed after all retries" }

/-- Final outcome of a logical call: the returned response or the raised
`ECMClientError`. -/
inductive ReqOutcome where
  | ok (resp : Response)
  | err (e : ECMError)
  deriving Repr, DecidableEq

/-- A run of `_request`: its outcome, the backoff sleeps performed (in
order, `asyncio.sleep` arguments at lines 163/171), and how many attempts
were issued to the transport. -/
structure RunResult where
  outcome : ReqOutcome
  sleeps : List ℤ
  tries : Nat
  deriving Repr, DecidableEq

/-- The retry loop of `_request` (lines 139–177).  `attempts i` is what the
transport does on the 0-based attempt `i`; `remaining` is the number of loop
iterations left; `last` is `last_exception`.  A response with status ≥ 400
makes `_handle_error_response` raise an `ECMClientError`, which is caught by
neither `except` clause (ECM errors are not `httpx.HTTPError`s) and
terminates the call.  A retryable failure on a non-final attempt sleeps
`retry_backoff ** attempt` and continues; on the final attempt the loop
exits and `last_exception` is raised (lines 174–177). -/
def request_loop (retryBackoff : ℤ) (attempts : Nat → AttemptResult) :
    (remaining : Nat) → (i : Nat) → (last : Option ECMError) → RunResult
  | 0, _, last =>
      { outcome := .err (last.getD
          { kind := .clientError, message := "Request failed after all retries" })
        sleeps := [], tries := 0 }
  | n + 1, i, _ =>
      match attempts i with
      | .success resp =>
          if 400 ≤ resp.statusCode then
            { outcome := .err (handle_error_response resp), sleeps := [], tries := 1 }
          else
            { outcome := .ok resp, sleeps := [], tries := 1 }
      | .timeout _ =>
          let e := retryableError (attempts i)
          if 0 < n then
            let r := request_loop retryBackoff attempts n (i + 1) (some e)
            { outcome := r.outcome, sleeps := retryBackoff ^ i :: r.sleeps
              tries := r.tries + 1 }
          else
            let r := request_loop retryBackoff attempts n (i + 1) (some e)
            { outcome := r.outcome, sleeps := r.sleeps, tries := r.tries + 1 }
      | .transportError _ =>
          let e := retryableError (attempts i)
          if 0 < n then
            let r := request_loop retryBackoff attempts n (i + 1) (some e)
            { outcome := r.outcome, sleeps := retryBackoff ^ i :: r.sleeps
              tries := r.tries + 1 }
          else
            let r := request_loop retryBackoff attempts n (i + 1) (some e)
            { outcome := r.outcome, sleeps := r.sleeps, tries := r.tries + 1 }

/-- `ECMClient._request` once past the rate-limit and auth stages: run the
retry loop with the configured attempt budget, starting at attempt 0 with
no `last_exception`. -/
def request (retryAttempts : Nat) (retryBackoff : ℤ)
    (attempts : Nat → AttemptResult) : RunResult :=
  request_loop retryBackoff attempts retryAttempts 0 none

/-! ## DELETE dispatch (`ECMClient.delete`, lines 250–255) -/

/-- What `ECMClient.delete` returns once `_request` succeeded. -/
inductive DeleteOutcome where
  /-- Status 204: the literal dict `{"status": "deleted"}`, body ignored. -/
  | deletedStatus
  /-- `response.json()` parsed to an object. -/
  | body (fields : List (String × String))
  /-- `response.json()` parsed to a non-object JSON value. -/
  | nonObjectBody
  /-- `response.json()` raised (body not valid JSON). -/
  | decodeError
  deriving Repr, DecidableEq

/-- Lines 253–255 of `ECMClient.delete`: on status 204 return
`{"status": "deleted"}` without touching the body, otherwise return
`response.json()`. -/
def delete_dispatch (r : Response) : DeleteOutcome :=
  if r.statusCode = 204 then
    .deletedStatus
  else
    match r.jsonBody with
    | .obj fields => .body fields
    | .nonObj => .nonObjectBody
    | .fail => .decodeError

/-! ## Transport lifecycle (`_get_client` lines 62–78, `close` lines 257–261) -/

/-- The transport-holding part of client state: `self._client`, an optional
handle to a pooled `httpx.AsyncClient`.  Handles are tagged with an id so
that re-creation is observable. -/
structure ClientState where
  client : Option Nat
  deriving Repr, DecidableEq

/-- `ECMClient.close`: if a transport is held, release it (`aclose`, which
returns normally) and drop the reference; otherwise do nothing. -/
def close (s : ClientState) : ClientState :=
  match s.client with
  | some _ => { client := none }
  | none => s

/-- `ECMClient._get_client`: return the held transport, creating a fresh one
(`fresh` is the id the runtime would assign) when none is held. -/
def get_client (s : ClientState) (fresh : Nat) : ClientState × Nat :=
  match s.client with
  | some c => (s, c)
  | none => ({ client := some fresh }, fresh)

/-! ## OAuth2 token lifecycle (`OAuth2Handler`, `src/client/auth.py` 28–84) -/

/-- The token-holding part of `OAuth2Handler` state: `self._token` and
`self._token_expires_at` (initialised to `None` and `0`). -/
structure OAuth2State where
  token : Option String
  tokenExpiresAt : ℤ
  deriving Repr, DecidableEq

/-- The initial handler state set in `OAuth2Handler.__init__`. -/
def oauth2Init : OAuth2State :=
  { token := none, tokenExpiresAt := 0 }

/-- A token-endpoint response as `_fetch_token` consumes it:
`token["access_token"]` and the optional `token.get("expires_in", 3600)`. -/
structure TokenResponse where
  accessToken : String
  expiresIn : Option ℤ
  deriving Repr, DecidableEq

/-- State update of a successful `OAuth2Handler._fetch_token` at instant
`now` (lines 56–59): store the token and set
`_token_expires_at = now + expires_in - 300`, with `expires_in`
defaulting to 3600. -/
def fetch_token (now : ℤ) (tok : TokenResponse) : OAuth2State :=
  { token := some tok.accessToken
    tokenExpiresAt := now + tok.expiresIn.getD 3600 - 300 }

/-- `OAuth2Handler._is_token_expired` (line 70): `time.time() >= self._token_expires_at`. -/
def is_token_expired (st : OAuth2State) (now : ℤ) : Bool :=
  st.tokenExpiresAt ≤ now

/-- `OAuth2Handler.refresh_if_needed` (lines 72–75): fetch a new token iff
no token is held or the held token is expired.  `tok` is the response the
token endpoint would return if a fetch happens. -/
def refresh_if_needed (st : OAuth2State) (now : ℤ) (tok : TokenResponse) :
    OAuth2State :=
  if st.token = none ∨ is_token_expired st now then fetch_token now tok else st

/-! ## Auth-handler construction (`create_auth_handler`, `src/client/auth.py`
117–151) and client construction (`ECMClient.__init__`, lines 37–51) -/

/-- `OAuthConfig` from `src/utils/config.py`. -/
structure OAuthConfig where
  clientId : String
  clientSecret : String
  tokenUrl : String
  scopes : List String
  deriving Repr, DecidableEq

/-- `APIKeyConfig` from `src/utils/config.py`. -/
structure APIKeyConfig where
  headerName : String
  key : String
  deriving Repr, DecidableEq

/-- `BasicAuthConfig` from `src/utils/config.py`. -/
structure BasicAuthConfig where
  username : String
  password : String
  deriving Repr, DecidableEq

/-- The fields of `ECMConfig` that `create_auth_handler` and
`ECMClient.__init__` consult. -/
structure ECMConfig where
  baseUrl : String
  authType : String
  oauth : Option OAuthConfig
  apiKey : Option APIKeyConfig
  basic : Option BasicAuthConfig
  timeout : ℤ
  retryAttempts : Nat
  retryBackoff : ℤ
  rateLimit : Nat
  deriving Repr, DecidableEq

/-- Python `str.lower()` on one character, for the ASCII range (auth-type
strings are ASCII). -/
def asciiCharLower (c : Char) : Char :=
  if 'A' ≤ c ∧ c ≤ 'Z' then Char.ofNat (c.toNat + 32) else c

/-- Python `str.lower()` as used on `config.ecm.auth_type`. -/
def str_lower (s : String) : String :=
  String.mk (s.data.map asciiCharLower)

/-- The Python `ValueError` raised by `create_auth_handler` (the
construction-time configuration error of the design). -/
structure ConfigurationError where
  message : String
  deriving Repr, DecidableEq

/-- The three auth-handler variants `create_auth_handler` can build. -/
inductive AuthHandler where
  | oauth2 (cfg : OAuthConfig) (baseUrl : String)
  | apiKey (cfg : APIKeyConfig)
  | basic (cfg : BasicAuthConfig)
  deriving Repr, DecidableEq

/-- `create_auth_handler`: dispatch on `config.ecm.auth_type.lower()`,
raising `ValueError` when the matching auth-config section is absent or the
auth type is unknown. -/
def create_auth_handler (c : ECMConfig) : Except ConfigurationError AuthHandler :=
  let authType := str_lower c.authType
  if authType = "oauth2" then
    match c.oauth with
    | none => .error ⟨"OAuth configuration is required for oauth2 auth type"⟩
    | some o => .ok (.oauth2 o c.baseUrl)
  else if authType = "api_key" then
    match c.apiKey with
    | none => .error ⟨"API key configuration is required for api_key auth type"⟩
    | some k => .ok (.apiKey k)
  else if authType = "basic" then
    match c.basic with
    | none => .error ⟨"Basic auth configuration is required for basic auth type"⟩
    | some b => .ok (.basic b)
  else
    .error ⟨"Invalid auth type: " ++ authType ++ ". Supported types: oauth2, api_key, basic"⟩

instance {e a : Type} [DecidableEq e] [DecidableEq a] : DecidableEq (Except e a) :=
  fun x y =>
    match x, y with
    | .error u, .error v => if h : u = v then .isTrue (by rw [h]) else .isFalse (by simp [h])
    | .ok u, .ok v => if h : u = v then .isTrue (by rw [h]) else .isFalse (by simp [h])
    | .error _, .ok _ => .isFalse (by simp)
    | .ok _, .error _ => .isFalse (by simp)

/-- The constructed client as `ECMClient.__init__` leaves it. -/
structure InitializedClient where
  authHandler : AuthHandler
  retryAttempts : Nat
  retryBackoff : ℤ
  rateLimit : Nat
  requestTimes : List ℤ
  transport : ClientState
  deriving Repr, DecidableEq

/-- `ECMClient.__init__` (lines 37–58): `create_auth_handler` runs inside
the constructor, so its `ValueError` propagates synchronously and no client
object is produced; otherwise the client starts with an empty rate window
and no transport. -/
def client_init (c : ECMConfig) : Except ConfigurationError InitializedClient :=
  match create_auth_handler c with
  | .error e => .error e
  | .ok h =>
      .ok { authHandler := h
            retryAttempts := c.retryAttempts
            retryBackoff := c.retryBackoff
            rateLimit := c.rateLimit
            requestTimes := []
            transport := { client := none } }

/-- A transport behaviour used to exercise the retry loop: a timeout on
attempt 0, then an HTTP 500 response. -/
def timeoutThen500 : Nat → AttemptResult := fun n =>
  match n with
  | 0 => .timeout "t0"
  | _ => .success ⟨500, .fail, "boom"⟩

/-- A transport behaviour that times out on every attempt. -/
def alwaysTimeout : Nat → AttemptResult := fun _ => .timeout "slow"

/-! ## Helper lemmas -/

theorem filter_fresh_eq_self (now : ℤ) (w : List ℤ)
    (hfresh : ∀ t ∈ w, now - t < 60) :
    w.filter (fun t => now - t < 60) = w := by
  rw [List.filter_eq_self]
  intro a ha
  simpa using hfresh a ha

theorem check_rate_limit_admit (N : ℕ) (w : List ℤ) (now : ℤ)
    (hlen : w.length < N) (hfresh : ∀ t ∈ w, now - t < 60) :
    check_rate_limit N w now = .admitted (w ++ [now]) := by
  unfold check_rate_limit
  rw [filter_fresh_eq_self now w hfresh, if_neg (by omega)]

theorem check_rate_limit_reject (N : ℕ) (w : List ℤ) (now : ℤ)
    (hN : N ≤ w.length) (hne : w ≠ []) (hfresh : ∀ t ∈ w, now - t < 60) :
    check_rate_limit N w now = .rejected (rate_limit_exceeded_error N) w := by
  unfold check_rate_limit
  rw [filter_fresh_eq_self now w hfresh, if_pos hN]
  cases hmin : w.min? with
  | none => exact absurd (List.min?_eq_none_iff.mp hmin) hne
  | some oldest =>
      have hmem : oldest ∈ w := List.min?_mem min_choice hmin
      have hlt : now - oldest < 60 := hfresh oldest hmem
      have hpos : (0:ℤ) < 60 - (now - oldest) := by omega
      simp [hpos]

theorem runChecksState_append (N : ℕ) (xs ys : List ℤ) :
    ∀ st, runChecksState N st (xs ++ ys)
      = runChecksState N (runChecksState N st xs) ys := by
  induction xs with
  | nil => intro st; rfl
  | cons x xs ih =>
      intro st
      simp only [List.cons_append, runChecksState, List.append_eq, ih]

/-! ## Claim theorems: rate limiter -/

/-- C2: for every configured capacity `N ≥ 1` and every sequence of `N + 1`
admission-check instants that all fall within one trailing 60-second window,
the first `N` checks are admitted, each appending its own timestamp to the
window, and check `N + 1` raises `ECMRateLimitError` immediately
(`_check_rate_limit` contains no sleep: the raise at line 96 happens instead
of the wait its log message mentions). -/
theorem rate_window_admits_then_rejects (N : ℕ) (hN : 1 ≤ N) (nows : List ℤ)
    (hlen : nows.length = N + 1)
    (hwin : ∀ i j (hi : i < nows.length) (hj : j < nows.length), i ≤ j →
      nows.get ⟨j, hj⟩ - nows.get ⟨i, hi⟩ < 60) :
    (∀ k (hk : k < N),
        check_rate_limit N (nows.take k) (nows.get ⟨k, by omega⟩)
          = .admitted (nows.take (k + 1)))
    ∧ runChecksState N [] (nows.take N) = nows.take N
    ∧ check_rate_limit N (nows.take N) (nows.get ⟨N, by omega⟩)
        = .rejected (rate_limit_exceeded_error N) (nows.take N) := by
  have hfresh : ∀ (k : ℕ) (hk : k < nows.length) (c : ℕ), c ≤ k →
      ∀ t ∈ nows.take c, nows.get ⟨k, hk⟩ - t < 60 := by
    intro k hk c hck t ht
    obtain ⟨i, hi, hti⟩ := List.getElem_of_mem ht
    have hic : i < c := by
      have := hi
      rw [List.length_take] at this
      omega
    have hil : i < nows.length := by omega
    rw [List.getElem_take] at hti
    subst hti
    have := hwin i k hil hk (by omega)
    simpa using this
  have part1 : ∀ k (hk : k < N),
      check_rate_limit N (nows.take k) (nows.get ⟨k, by omega⟩)
        = .admitted (nows.take (k + 1)) := by
    intro k hk
    have hkl : k < nows.length := by omega
    have h1 := check_rate_limit_admit N (nows.take k) (nows.get ⟨k, hkl⟩)
      (by rw [List.length_take]; omega) (hfresh k hkl k le_rfl)
    rw [h1]
    have h2 := List.take_concat_get nows k hkl
    rw [List.concat_eq_append] at h2
    rw [show nows.get ⟨k, hkl⟩ = nows[k] from rfl, h2]
  have part2 : ∀ k, k ≤ N → runChecksState N [] (nows.take k) = nows.take k := by
    intro k
    induction k with
    | zero => intro _; simp [runChecksState]
    | succ k ih =>
        intro hk1
        have hk : k < N := by omega
        have hkl : k < nows.length := by omega
        have h2 := List.take_concat_get nows k hkl
        rw [List.concat_eq_append] at h2
        rw [← h2, runChecksState_append, ih (by omega)]
        show runChecksState N
          (rateStateAfter (check_rate_limit N (nows.take k) nows[k])) [] = _
        rw [show (nows[k] : ℤ) = nows.get ⟨k, hkl⟩ from rfl, part1 k hk]
        simp only [runChecksState, rateStateAfter]
        exact h2.symm
  have part3 : check_rate_limit N (nows.take N) (nows.get ⟨N, by omega⟩)
      = .rejected (rate_limit_exceeded_error N) (nows.take N) := by
    have hNl : N < nows.length := by omega
    apply check_rate_limit_reject
    · rw [List.length_take]; omega
    · intro hemp
      have hl := congrArg List.length hemp
      rw [List.length_take] at hl
      simp only [List.length_nil] at hl
      omega
    · exact hfresh N hNl N le_rfl
  exact ⟨part1, part2 N le_rfl, part3⟩

/-- C2 witness: capacity 1 and check instants 0 and 30: the first check is
admitted and records its timestamp, the second is rejected with
`ECMRateLimitError`. -/
theorem rate_window_admits_then_rejects_witness :
    (check_rate_limit 1 [] 0 = .admitted [0])
    ∧ (runChecksState 1 [] [0] = [0])
    ∧ (check_rate_limit 1 [0] 30
        = .rejected (rate_limit_exceeded_error 1) [0]) := by
  have h := rate_window_admits_then_rejects 1 (by decide) [0, 30] (by decide)
    (fun i j hi hj hij => by
      simp only [List.length_cons, List.length_nil] at hi hj
      interval_cases i <;> interval_cases j <;> norm_num)
  refine ⟨?_, ?_, ?_⟩
  · simpa using h.1 0 (by decide)
  · simpa using h.2.1
  · simpa using h.2.2

/-- C6 counterexample: with capacity 0 and an empty window, the admission
check does not raise `ECMRateLimitError`: `min(self._request_times)` at line
92 raises `ValueError` on the empty purged list. -/
theorem rate_limit_zero_counterexample :
    check_rate_limit 0 [] 0 = .valueError []
    ∧ isRateLimitRejection (check_rate_limit 0 [] 0) = false := by decide

/-- C6 amended: with capacity 0 no admission check is ever admitted; when the
purged window is nonempty the check raises `ECMRateLimitError`, and when the
purged window is empty it raises `ValueError` (from `min` of an empty
sequence) instead. -/
theorem rate_limit_zero_never_admits (times : List ℤ) (now : ℤ) :
    isAdmitted (check_rate_limit 0 times now) = false
    ∧ (times.filter (fun t => now - t < 60) = [] →
        check_rate_limit 0 times now = .valueError [])
    ∧ (times.filter (fun t => now - t < 60) ≠ [] →
        check_rate_limit 0 times now
          = .rejected (rate_limit_exceeded_error 0)
              (times.filter (fun t => now - t < 60))) := by
  have hrej : times.filter (fun t => now - t < 60) ≠ [] →
      check_rate_limit 0 times now
        = .rejected (rate_limit_exceeded_error 0)
            (times.filter (fun t => now - t < 60)) := by
    intro hne
    unfold check_rate_limit
    rw [if_pos (Nat.zero_le _)]
    cases hmin : (times.filter (fun t => now - t < 60)).min? with
    | none => exact absurd (List.min?_eq_none_iff.mp hmin) hne
    | some oldest =>
        have hmem : oldest ∈ times.filter (fun t => now - t < 60) :=
          List.min?_mem min_choice hmin
        have hlt : now - oldest < 60 := by
          have := (List.mem_filter.mp hmem).2
          simpa using this
        have hpos : (0:ℤ) < 60 - (now - oldest) := by omega
        simp [hpos]
  have hval : times.filter (fun t => now - t < 60) = [] →
      check_rate_limit 0 times now = .valueError [] := by
    intro hemp
    unfold check_rate_limit
    rw [if_pos (Nat.zero_le _), hemp]
    rfl
  refine ⟨?_, hval, hrej⟩
  cases hf : times.filter (fun t => now - t < 60) with
  | nil => rw [hval hf]; rfl
  | cons a as => rw [hrej (by rw [hf]; simp)]; rfl

/-- C6 witness for the amended statement: both raise modes at concrete
inputs. -/
theorem rate_limit_zero_never_admits_witness :
    check_rate_limit 0 [] 0 = .valueError []
    ∧ check_rate_limit 0 [5] 30
        = .rejected (rate_limit_exceeded_error 0) [5] := by
  refine ⟨(rate_limit_zero_never_admits [] 0).2.1 (by decide), ?_⟩
  have h := (rate_limit_zero_never_admits [5] 30).2.2 (by decide)
  simpa using h

/-- C10: a check that raises (rate-limit rejection or `ValueError`) leaves
the window holding exactly the non-stale entries it held before — no
timestamp is recorded; a timestamp (the current instant) is appended only
when the check is admitted. -/
theorem rejected_check_consumes_no_budget (N : ℕ) (times : List ℤ) (now : ℤ) :
    (∀ e w, check_rate_limit N times now = .rejected e w →
        w = times.filter (fun t => now - t < 60))
    ∧ (∀ w, check_rate_limit N times now = .valueError w →
        w = times.filter (fun t => now - t < 60))
    ∧ (∀ w, check_rate_limit N times now = .admitted w →
        w = times.filter (fun t => now - t < 60) ++ [now]) := by
  unfold check_rate_limit
  by_cases hle : N ≤ (times.filter (fun t => now - t < 60)).length
  · rw [if_pos hle]
    cases hmin : (times.filter (fun t => now - t < 60)).min? with
    | none =>
        refine ⟨?_, ?_, ?_⟩
        · intro e w h; cases h
        · intro w h; cases h; rfl
        · intro w h; cases h
    | some oldest =>
        by_cases hpos : (0:ℤ) < 60 - (now - oldest)
        · simp only [if_pos hpos]
          refine ⟨?_, ?_, ?_⟩
          · intro e w h; cases h; rfl
          · intro w h; cases h
          · intro w h; cases h
        · simp only [if_neg hpos]
          refine ⟨?_, ?_, ?_⟩
          · intro e w h; cases h
          · intro w h; cases h
          · intro w h; cases h; rfl
  · rw [if_neg hle]
    refine ⟨?_, ?_, ?_⟩
    · intro e w h; cases h
    · intro w h; cases h
    · intro w h; cases h; rfl

/-- C10 witness: a concrete rejected check keeps the purged window unchanged
and a concrete admitted check appends the current instant. -/
theorem rejected_check_consumes_no_budget_witness :
    ([5] : List ℤ) = List.filter (fun t => (30:ℤ) - t < 60) [5]
    ∧ ([0] : List ℤ) = List.filter (fun t => (0:ℤ) - t < 60) [] ++ [0] := by
  refine ⟨?_, ?_⟩
  · exact (rejected_check_consumes_no_budget 0 [5] 30).1
      (rate_limit_exceeded_error 0) [5] (by decide)
  · exact (rejected_check_consumes_no_budget 1 [] 0).2.2 [0] (by decide)

/-! ## Claim theorems: request executor -/


/-- Helper: the retry loop never issues more attempts than it has loop
iterations left. -/
theorem request_loop_tries_le (rb : ℤ) (att : Nat → AttemptResult) :
    ∀ (remaining i : Nat) (last : Option ECMError),
      (request_loop rb att remaining i last).tries ≤ remaining := by
  intro remaining
  induction remaining with
  | zero => intro i last; simp [request_loop]
  | succ n ih =>
      intro i last
      cases hai : att i with
      | success resp =>
          by_cases hs : 400 ≤ resp.statusCode
          · simp [request_loop, hai, hs]
          · simp [request_loop, hai, hs]
      | timeout msg =>
          by_cases hn : 0 < n
          · simp only [request_loop, hai, if_pos hn]
            have := ih (i+1) (some (retryableError (AttemptResult.timeout msg)))
            simpa using Nat.succ_le_succ this
          · simp only [request_loop, hai, if_neg hn]
            have := ih (i+1) (some (retryableError (AttemptResult.timeout msg)))
            simpa using Nat.succ_le_succ this
      | transportError msg =>
          by_cases hn : 0 < n
          · simp only [request_loop, hai, if_pos hn]
            have := ih (i+1) (some (retryableError (AttemptResult.transportError msg)))
            simpa using Nat.succ_le_succ this
          · simp only [request_loop, hai, if_neg hn]
            have := ih (i+1) (some (retryableError (AttemptResult.transportError msg)))
            simpa using Nat.succ_le_succ this

/-- Helper: if attempts `i, i+1, ..., i+k-1` fail retryably and attempt
`i+k` yields a response with status ≥ 400, the loop sleeps
`rb ^ i, ..., rb ^ (i+k-1)`, issues exactly `k + 1` attempts, and ends with
the classified error. -/
theorem request_loop_terminal_on_status (rb : ℤ) (att : Nat → AttemptResult) :
    ∀ (k remaining i : Nat) (last : Option ECMError) (resp : Response),
      k < remaining →
      (∀ j, j < k → isRetryable (att (i + j)) = true) →
      att (i + k) = .success resp →
      400 ≤ resp.statusCode →
      request_loop rb att remaining i last =
        { outcome := .err (handle_error_response resp)
          sleeps := (List.range k).map (fun j => rb ^ (i + j))
          tries := k + 1 } := by
  intro k
  induction k with
  | zero =>
      intro remaining i last resp hk hretry hsucc hst
      cases remaining with
      | zero => omega
      | succ n =>
          have h0 : att i = .success resp := by simpa using hsucc
          simp [request_loop, h0, if_pos hst]
  | succ k ih =>
      intro remaining i last resp hk hretry hsucc hst
      cases remaining with
      | zero => omega
      | succ n =>
          have hn : 0 < n := by omega
          have hr0 : isRetryable (att i) = true := by
            simpa using hretry 0 (by omega)
          cases hai : att i with
          | success r => rw [hai] at hr0; simp [isRetryable] at hr0
          | timeout msg =>
              have hrec := ih n (i+1)
                (some (retryableError (AttemptResult.timeout msg))) resp (by omega)
                (fun j hj => by
                  have h := hretry (j+1) (by omega)
                  have e : i + (j + 1) = i + 1 + j := by omega
                  rw [e] at h
                  exact h)
                (by
                  have e : i + (k + 1) = i + 1 + k := by omega
                  rw [e] at hsucc
                  exact hsucc)
                hst
              simp only [request_loop, hai, if_pos hn]
              rw [hrec]
              simp only [RunResult.mk.injEq]
              refine ⟨trivial, ?_, trivial⟩
              rw [List.range_succ_eq_map, List.map_cons, List.map_map]
              congr 1
              apply List.map_congr_left
              intro a _
              simp only [Function.comp_apply]
              congr 1
              omega
          | transportError msg =>
              have hrec := ih n (i+1)
                (some (retryableError (AttemptResult.transportError msg))) resp (by omega)
                (fun j hj => by
                  have h := hretry (j+1) (by omega)
                  have e : i + (j + 1) = i + 1 + j := by omega
                  rw [e] at h
                  exact h)
                (by
                  have e : i + (k + 1) = i + 1 + k := by omega
                  rw [e] at hsucc
                  exact hsucc)
                hst
              simp only [request_loop, hai, if_pos hn]
              rw [hrec]
              simp only [RunResult.mk.injEq]
              refine ⟨trivial, ?_, trivial⟩
              rw [List.range_succ_eq_map, List.map_cons, List.map_map]
              congr 1
              apply List.map_congr_left
              intro a _
              simp only [Function.comp_apply]
              congr 1
              omega



/-- Helper: when every remaining attempt fails retryably, the loop's final
outcome is the classified error built from the last failure. -/
theorem request_loop_all_retryable_err (rb : ℤ) (att : Nat → AttemptResult) :
    ∀ (remaining i : Nat) (last : Option ECMError),
      1 ≤ remaining →
      (∀ j, j < remaining → isRetryable (att (i + j)) = true) →
      (request_loop rb att remaining i last).outcome
        = .err (retryableError (att (i + remaining - 1))) := by
  intro remaining
  induction remaining with
  | zero => intro i last h1; omega
  | succ n ih =>
      intro i last _ hall
      have hr0 : isRetryable (att i) = true := by simpa using hall 0 (by omega)
      have hnext : 0 < n → ∀ j, j < n → isRetryable (att (i + 1 + j)) = true := by
        intro _ j hj
        have h := hall (j+1) (by omega)
        have e : i + (j + 1) = i + 1 + j := by omega
        rw [e] at h
        exact h
      cases hai : att i with
      | success r => rw [hai] at hr0; simp [isRetryable] at hr0
      | timeout msg =>
          simp only [request_loop, hai]
          by_cases hn : 0 < n
          · rw [if_pos hn]
            show (request_loop rb att n (i+1)
              (some (retryableError (AttemptResult.timeout msg)))).outcome = _
            rw [ih (i+1) (some (retryableError (AttemptResult.timeout msg)))
              (by omega) (hnext hn),
              show (i + 1 + n - 1 : ℕ) = i + (n + 1) - 1 from by omega]
          · have hn0 : n = 0 := by omega
            subst hn0
            rw [if_neg hn]
            show (request_loop rb att 0 (i+1)
              (some (retryableError (AttemptResult.timeout msg)))).outcome = _
            simp only [request_loop, Option.getD_some]
            rw [show i + (0 + 1) - 1 = i from by omega, hai]
      | transportError msg =>
          simp only [request_loop, hai]
          by_cases hn : 0 < n
          · rw [if_pos hn]
            show (request_loop rb att n (i+1)
              (some (retryableError (AttemptResult.transportError msg)))).outcome = _
            rw [ih (i+1) (some (retryableError (AttemptResult.transportError msg)))
              (by omega) (hnext hn),
              show (i + 1 + n - 1 : ℕ) = i + (n + 1) - 1 from by omega]
          · have hn0 : n = 0 := by omega
            subst hn0
            rw [if_neg hn]
            show (request_loop rb att 0 (i+1)
              (some (retryableError (AttemptResult.transportError msg)))).outcome = _
            simp only [request_loop, Option.getD_some]
            rw [show i + (0 + 1) - 1 = i from by omega, hai]

/-- C1: an HTTP response with status ≥ 400 on any attempt `i` is classified
by `_handle_error_response` and terminates the call there — exactly `i + 1`
attempts happen and each preceding retryable failure on attempt `j` was
followed by a sleep of `retry_backoff ^ j`; and no call ever issues more
than `retry_attempts` attempts. -/
theorem status_ge_400_terminal (ra : Nat) (rb : ℤ) (att : Nat → AttemptResult) :
    (∀ (i : Nat) (resp : Response), i < ra →
        (∀ j, j < i → isRetryable (att j) = true) →
        att i = .success resp → 400 ≤ resp.statusCode →
        request ra rb att =
          { outcome := .err (handle_error_response resp)
            sleeps := (List.range i).map (fun j => rb ^ j)
            tries := i + 1 })
    ∧ (request ra rb att).tries ≤ ra := by
  constructor
  · intro i resp hi hretry hsucc hst
    have h := request_loop_terminal_on_status rb att i ra 0 none resp hi
      (fun j hj => by simpa using hretry j hj) (by simpa using hsucc) hst
    rw [request, h]
    simp only [RunResult.mk.injEq]
    refine ⟨trivial, ?_, trivial⟩
    apply List.map_congr_left
    intro a _
    rw [Nat.zero_add]
  · exact request_loop_tries_le rb att ra 0 none

/-- C1 witness: with 3 configured attempts and backoff 2, a timeout then an
HTTP 500 gives one backoff sleep of 2^0 = 1 and terminates on attempt 2 with
the classified error. -/
theorem status_ge_400_terminal_witness :
    request 3 2 timeoutThen500 =
      { outcome := .err (handle_error_response ⟨500, .fail, "boom"⟩)
        sleeps := [1], tries := 2 } := by
  have h := (status_ge_400_terminal 3 2 timeoutThen500).1 1 ⟨500, .fail, "boom"⟩
    (by omega) (fun j hj => by interval_cases j; rfl) rfl (by norm_num)
  simpa using h

/-- C3: when all `retry_attempts` tries fail retryably, the final outcome of
the call is the classified error of the last observed failure — raised, not
swallowed — and in particular `ECMTimeoutError` when the last failure was a
timeout. -/
theorem retryable_exhaustion_raises_last (ra : Nat) (rb : ℤ)
    (att : Nat → AttemptResult) (hra : 1 ≤ ra)
    (hall : ∀ j, j < ra → isRetryable (att j) = true) :
    (request ra rb att).outcome = .err (retryableError (att (ra - 1)))
    ∧ (∀ msg, att (ra - 1) = .timeout msg →
        (request ra rb att).outcome
          = .err { kind := .timeoutError, message := "Request timeout: " ++ msg }) := by
  have h := request_loop_all_retryable_err rb att ra 0 none hra
    (fun j hj => by simpa using hall j hj)
  rw [show (0 + ra - 1 : Nat) = ra - 1 from by omega] at h
  constructor
  · exact h
  · intro msg hmsg
    rw [hmsg] at h
    exact h

/-- C3 witness: three timeouts with budget 3 end in `ECMTimeoutError`. -/
theorem retryable_exhaustion_witness :
    (request 3 2 alwaysTimeout).outcome
      = .err { kind := .timeoutError, message := "Request timeout: slow" } := by
  exact (retryable_exhaustion_raises_last 3 2 alwaysTimeout (by omega)
    (fun j _ => rfl)).2 "slow" rfl

/-! ## Claim theorems: auth, classifier, delete, lifecycle, construction -/


/-- C4: a bearer token fetched at `fetchTime` with returned lifetime
`lifetime` is expired exactly when `now ≥ fetchTime + lifetime - 300` and
never earlier (with lifetime 3600, exactly at `now ≥ fetchTime + 3300`);
a missing `expires_in` defaults to 3600; and `refresh_if_needed` fetches a
new token if and only if no token is held or that expiry condition holds. -/
theorem bearer_token_expiry (st : OAuth2State) (fetchTime lifetime : ℤ) (v : String) :
    (∀ now, is_token_expired (fetch_token fetchTime ⟨v, some lifetime⟩) now = true ↔
        fetchTime + lifetime - 300 ≤ now)
    ∧ (∀ now, is_token_expired (fetch_token fetchTime ⟨v, some 3600⟩) now = true ↔
        fetchTime + 3300 ≤ now)
    ∧ (fetch_token fetchTime ⟨v, none⟩).tokenExpiresAt = fetchTime + 3600 - 300
    ∧ (∀ now tok, (st.token = none ∨ is_token_expired st now = true) →
        refresh_if_needed st now tok = fetch_token now tok)
    ∧ (∀ now tok, st.token ≠ none → is_token_expired st now = false →
        refresh_if_needed st now tok = st) := by
  refine ⟨?_, ?_, rfl, ?_, ?_⟩
  · intro now
    simp only [is_token_expired, fetch_token, Option.getD_some, decide_eq_true_eq]
  · intro now
    simp only [is_token_expired, fetch_token, Option.getD_some, decide_eq_true_eq]
    omega
  · intro now tok h
    rcases h with h | h
    · rw [refresh_if_needed, if_pos (Or.inl h)]
    · rw [refresh_if_needed, if_pos (Or.inr (by simpa using h))]
  · intro now tok h1 h2
    rw [refresh_if_needed, if_neg]
    intro hor
    rcases hor with h | h
    · exact h1 h
    · rw [h2] at h
      cases h

/-- C4 witness: token fetched at 100 with lifetime 3600 is expired at 3400,
not at 3399; the default lifetime yields expiry 3400; an initial state
fetches; a fresh held token is kept. -/
theorem bearer_token_expiry_witness :
    (is_token_expired (fetch_token 100 ⟨"tok", some 3600⟩) 3400 = true)
    ∧ (is_token_expired (fetch_token 100 ⟨"tok", some 3600⟩) 3399 = false)
    ∧ ((fetch_token 100 ⟨"tok", none⟩).tokenExpiresAt = 3400)
    ∧ (refresh_if_needed oauth2Init 0 ⟨"tok", some 3600⟩ = fetch_token 0 ⟨"tok", some 3600⟩)
    ∧ (refresh_if_needed ⟨some "tok", 500⟩ 499 ⟨"new", none⟩ = ⟨some "tok", 500⟩) := by
  have h := bearer_token_expiry oauth2Init 100 3600 "tok"
  have h2 := bearer_token_expiry (⟨some "tok", 500⟩ : OAuth2State) 100 3600 "tok"
  refine ⟨(h.2.1 3400).mpr (by decide), ?_, by decide, ?_, ?_⟩
  · have := (h.2.1 3399)
    cases he : is_token_expired (fetch_token 100 ⟨"tok", some 3600⟩) 3399 with
    | false => rfl
    | true => exact absurd (this.mp he) (by decide)
  · exact h.2.2.2.1 0 ⟨"tok", some 3600⟩ (Or.inl rfl)
  · exact h2.2.2.2.2 499 ⟨"new", none⟩ (by simp) (by decide)



/-- C5: the classifier extracts the message from a JSON-object body by field
`error`, else field `message`, else the raw text, and falls back to raw text
on parse failure; the error kind is a function of the status code alone (401
/ 403 / 404 / 429 / other); in particular status 404 with body
`\x7b"message": "doc missing"\x7d` classifies as `ECMNotFoundError` with
extracted message `doc missing`, and status 500 with unparsable body
`internal error` classifies as the generic `ECMClientError` with extracted
message `internal error`. -/
theorem classifier_extraction_and_kinds :
    (∀ r fields, r.jsonBody = .obj fields →
        extract_error_message r =
          ((lookupField "error" fields).getD
            ((lookupField "message" fields).getD r.text)))
    ∧ (∀ r, r.jsonBody = .fail → extract_error_message r = r.text)
    ∧ (∀ r, (handle_error_response r).kind =
        if r.statusCode = 401 then .authenticationError
        else if r.statusCode = 403 then .permissionError
        else if r.statusCode = 404 then .notFoundError
        else if r.statusCode = 429 then .rateLimitError
        else .clientError)
    ∧ ((handle_error_response
        ⟨404, .obj [("message", "doc missing")],
          "\x7b\"message\": \"doc missing\"\x7d"⟩).kind = .notFoundError)
    ∧ (extract_error_message
        ⟨404, .obj [("message", "doc missing")],
          "\x7b\"message\": \"doc missing\"\x7d"⟩ = "doc missing")
    ∧ ((handle_error_response ⟨500, .fail, "internal error"⟩).kind = .clientError)
    ∧ (extract_error_message ⟨500, .fail, "internal error"⟩ = "internal error") := by
  refine ⟨?_, ?_, ?_, by decide, by decide, by decide, by decide⟩
  · intro r fields h
    simp only [extract_error_message, h]
    cases h1 : lookupField "error" fields with
    | some v => simp [h1]
    | none =>
        cases h2 : lookupField "message" fields with
        | some v => simp [h2]
        | none => simp [h2]
  · intro r h
    simp [extract_error_message, h]
  · intro r
    simp only [handle_error_response]
    split_ifs <;> rfl

/-- C5 witness: the extraction priority evaluated at concrete bodies:
`error` beats `message`, `message` beats raw text, raw text is the fallback
for objects without either field and for unparsable bodies. -/
theorem classifier_extraction_witness :
    extract_error_message
      ⟨400, .obj [("error", "E1"), ("message", "M1")], "raw"⟩ = "E1"
    ∧ extract_error_message ⟨400, .obj [("message", "M1")], "raw"⟩ = "M1"
    ∧ extract_error_message ⟨400, .obj [("other", "x")], "raw"⟩ = "raw"
    ∧ extract_error_message ⟨418, .fail, "teapot"⟩ = "teapot" := by
  refine ⟨?_, ?_, ?_, ?_⟩
  · have h := classifier_extraction_and_kinds.1
      ⟨400, .obj [("error", "E1"), ("message", "M1")], "raw"⟩
      [("error", "E1"), ("message", "M1")] rfl
    rw [h]; decide
  · have h := classifier_extraction_and_kinds.1
      ⟨400, .obj [("message", "M1")], "raw"⟩ [("message", "M1")] rfl
    rw [h]; decide
  · have h := classifier_extraction_and_kinds.1
      ⟨400, .obj [("other", "x")], "raw"⟩ [("other", "x")] rfl
    rw [h]; decide
  · exact classifier_extraction_and_kinds.2.1 ⟨418, .fail, "teapot"⟩ rfl

/-- C7: a delete-style call whose response has status 204 returns the fixed
empty result without the body ever being parsed (the result is the same even
when the body is unparsable), and every delete response with status < 400
other than 204 is returned as its parsed JSON body. -/
theorem delete_204_no_parse (r : Response) :
    (r.statusCode = 204 → delete_dispatch r = .deletedStatus)
    ∧ (r.statusCode < 400 → r.statusCode ≠ 204 →
        delete_dispatch r =
          match r.jsonBody with
          | .obj fields => .body fields
          | .nonObj => .nonObjectBody
          | .fail => .decodeError) := by
  constructor
  · intro h
    rw [delete_dispatch, if_pos h]
  · intro _ h
    rw [delete_dispatch, if_neg h]

/-- C7 witness: a 204 response with an unparsable body still yields the
empty result; a 200 response yields its parsed JSON object. -/
theorem delete_204_no_parse_witness :
    delete_dispatch ⟨204, .fail, "x"⟩ = .deletedStatus
    ∧ delete_dispatch ⟨200, .obj [("ok", "true")], "y"⟩ = .body [("ok", "true")] := by
  refine ⟨(delete_204_no_parse _).1 rfl, ?_⟩
  have h := (delete_204_no_parse ⟨200, .obj [("ok", "true")], "y"⟩).2
    (by norm_num) (by norm_num)
  simpa using h

/-- C8: `close()` is idempotent and safe in every client state — calling it
any number of times (also when the transport was never opened) raises
nothing and leaves no held transport — and a subsequent `_get_client`
recreates the transport. -/
theorem close_idempotent_and_reopens (s : ClientState) (fresh : Nat) :
    close (close s) = close s
    ∧ (∀ n, close^[n + 1] s = close s)
    ∧ (close s).client = none
    ∧ get_client (close s) fresh = ({ client := some fresh }, fresh) := by
  have hid : ∀ t : ClientState, close (close t) = close t := by
    intro t
    obtain ⟨c⟩ := t
    cases c <;> rfl
  have hnone : (close s).client = none := by
    obtain ⟨c⟩ := s
    cases c <;> rfl
  refine ⟨hid s, ?_, hnone, ?_⟩
  · intro n
    induction n with
    | zero => simp
    | succ k ih =>
        rw [Function.iterate_succ_apply', ih, hid]
  · rw [get_client]
    obtain ⟨c⟩ := s
    cases c <;> rfl

/-- C9: for every configuration whose selected (lower-cased) auth type is
`oauth2`, `api_key`, or `basic` but whose matching auth-config section is
absent, and for every auth type outside that set, client construction fails
synchronously with the construction-time configuration error (`ValueError`
from `create_auth_handler`, raised inside `ECMClient.__init__`); no client
object is produced, so nothing is deferred to the first request. -/
theorem construction_config_errors (c : ECMConfig) :
    (str_lower c.authType = "oauth2" → c.oauth = none →
        client_init c
          = .error ⟨"OAuth configuration is required for oauth2 auth type"⟩)
    ∧ (str_lower c.authType = "api_key" → c.apiKey = none →
        client_init c
          = .error ⟨"API key configuration is required for api_key auth type"⟩)
    ∧ (str_lower c.authType = "basic" → c.basic = none →
        client_init c
          = .error ⟨"Basic auth configuration is required for basic auth type"⟩)
    ∧ (str_lower c.authType ≠ "oauth2" → str_lower c.authType ≠ "api_key" →
        str_lower c.authType ≠ "basic" →
        client_init c = .error ⟨"Invalid auth type: " ++ str_lower c.authType
          ++ ". Supported types: oauth2, api_key, basic"⟩) := by
  refine ⟨?_, ?_, ?_, ?_⟩
  · intro h1 h2
    simp [client_init, create_auth_handler, h1, h2]
  · intro h1 h2
    simp [client_init, create_auth_handler, h1, h2]
  · intro h1 h2
    simp [client_init, create_auth_handler, h1, h2]
  · intro h1 h2 h3
    simp [client_init, create_auth_handler, h1, h2, h3]

/-- C9 witness: the four construction-failure modes at concrete
configurations, including the case-insensitive `OAuth2` spelling. -/
theorem construction_config_errors_witness :
    (client_init ⟨"https://ecm.example.com", "OAuth2", none, none, none, 30, 3, 2, 100⟩
      = .error ⟨"OAuth configuration is required for oauth2 auth type"⟩)
    ∧ (client_init ⟨"u", "api_key", none, none, none, 30, 3, 2, 100⟩
      = .error ⟨"API key configuration is required for api_key auth type"⟩)
    ∧ (client_init ⟨"u", "basic", none, none, none, 30, 3, 2, 100⟩
      = .error ⟨"Basic auth configuration is required for basic auth type"⟩)
    ∧ (client_init ⟨"u", "token", none, none, none, 30, 3, 2, 100⟩
      = .error ⟨"Invalid auth type: token. Supported types: oauth2, api_key, basic"⟩) := by
  refine ⟨(construction_config_errors _).1 (by decide) rfl,
          (construction_config_errors _).2.1 (by decide) rfl,
          (construction_config_errors _).2.2.1 (by decide) rfl, ?_⟩
  have h := (construction_config_errors
    ⟨"u", "token", none, none, none, 30, 3, 2, 100⟩).2.2.2
    (by decide) (by decide) (by decide)
  rw [h]
  decide

end ECM
